import Mathlib

/-!
Shallow embedding of the go-tfe client library (accounts, runs, registry
modules) together with the spec-modelled fragments of the shared client
core that the repository files reference but that are defined outside the
given sources (string validators, response-code mapping, pagination).

Go conventions used throughout the embedding:
* a Go string is a Lean `String`;
* a Go pointer `*T` is `Option T` (`none` = nil);
* a Go `error` result is `Option TFEError` (`none` = nil error);
* a pair `(v, err)` returned by an operation is an explicit product;
* a run-time panic (failed type assertion) is an outer `Option` being `none`.
-/

/-- Errors surfaced by the client.  `simple` is a Go `errors.New` message as
produced by the source files; the remaining kinds model the typed errors of
the response decoder described in the spec (404 maps to a distinct
not-found kind, other non-2xx to a request-failed kind). -/
inductive TFEError where
  | simple (msg : String)
  | notFound
  | requestFailed (status : Nat) (msg : String)
  deriving DecidableEq, Repr

/-- HTTP methods used by the embedded operations. -/
inductive Method where
  | GET
  | POST
  | PATCH
  | DELETE
  deriving DecidableEq, Repr

/-- An in-memory HTTP request as produced by the request builder: a verb, a
fully assembled relative path, and an optional serialized body of the
operation's options type. -/
structure Request (β : Type) where
  method : Method
  path : String
  body : Option β
  deriving DecidableEq, Repr

/-- Result of running one resource-module operation against a modelled
transport: the list of HTTP requests actually issued (in order), the
returned resource pointer, and the returned error. -/
structure OpResult (β α : Type) where
  calls : List (Request β)
  value : Option α
  err : Option TFEError
  deriving DecidableEq, Repr

/-- Result of an operation that returns only an error (no resource). -/
structure ActionResult (β : Type) where
  calls : List (Request β)
  err : Option TFEError
  deriving DecidableEq, Repr

/-- Hexadecimal digit (uppercase), used by percent-encoding. -/
def hexDigit (n : Nat) : Char :=
  if n < 10 then Char.ofNat (48 + n)
  else if n = 10 then 'A'
  else if n = 11 then 'B'
  else if n = 12 then 'C'
  else if n = 13 then 'D'
  else if n = 14 then 'E'
  else 'F'

/-- The `%XX` escape of a single byte, as in Go's `net/url`. -/
def escapeByte (b : Nat) : String :=
  String.mk ['%', hexDigit (b / 16 % 16), hexDigit (b % 16)]

/-- UTF-8 bytes of a character (Go strings are UTF-8 byte sequences). -/
def utf8Bytes (c : Char) : List Nat :=
  let n := c.toNat
  if n < 0x80 then [n]
  else if n < 0x800 then [0xC0 + n / 64, 0x80 + n % 64]
  else if n < 0x10000 then [0xE0 + n / 4096, 0x80 + n / 64 % 64, 0x80 + n % 64]
  else [0xF0 + n / 262144, 0x80 + n / 4096 % 64, 0x80 + n / 64 % 64, 0x80 + n % 64]

/-- Characters Go's `url.QueryEscape` leaves unescaped (the unreserved set). -/
def isUnreservedChar (c : Char) : Bool :=
  ('A' ≤ c && c ≤ 'Z') || ('a' ≤ c && c ≤ 'z') || ('0' ≤ c && c ≤ '9') ||
    c = '-' || c = '_' || c = '.' || c = '~'

/-- Go's `url.QueryEscape` on one character: space becomes `+`, unreserved
characters pass through, every other byte is percent-escaped. -/
def queryEscapeChar (c : Char) : String :=
  if c = ' ' then "+"
  else if isUnreservedChar c then String.mk [c]
  else String.join ((utf8Bytes c).map escapeByte)

/-- Go's `url.QueryEscape`, applied by the Runs operations to
identifier-derived path segments. -/
def queryEscape (s : String) : String :=
  String.join (s.data.map queryEscapeChar)

/-- Modelled from the spec: the validation helper `validStringID` is
referenced by the run operations but defined outside the given sources; the
spec describes it as `validIdentifier(s) -> bool` (non-empty,
non-whitespace-only). -/
def validStringID (v : Option String) : Bool :=
  match v with
  | none => false
  | some s => s != "" && s.data.any (fun c => !c.isWhitespace)

/-- Modelled from the spec: the validation helper `validString` is
referenced by `TwoFactorVerifyOptions.valid` but defined outside the given
sources; the spec describes the required-field check as failing "when the
pointer is nil or the referenced value is empty". -/
def validString (v : Option String) : Bool :=
  match v with
  | none => false
  | some s => s != ""

/-- Modelled from the spec: pagination parameters (page number, page size)
shared by all list operations; the `ListOptions` struct is defined outside
the given sources. -/
structure ListOptions where
  PageNumber : Nat
  PageSize : Nat
  deriving DecidableEq, Repr

/-- Modelled from the spec: the response decoder maps a 404 status to the
distinct not-found kind and any other non-2xx status to a request-failed
kind carrying status and message; the `client.do` status handling is
defined outside the given sources. -/
def checkResponseCode (status : Nat) (msg : String) : Option TFEError :=
  if 200 ≤ status && status < 300 then none
  else if status = 404 then some TFEError.notFound
  else some (TFEError.requestFailed status msg)

/-- Modelled from the spec: a resource envelope for a workspace (opaque
server-assigned identifier); the `Workspace` struct is defined outside the
given sources and the run operations only reference it. -/
structure Workspace where
  ID : String
  deriving DecidableEq, Repr

/-- Modelled from the spec: a resource envelope for a configuration version
(opaque server-assigned identifier); the struct is defined outside the
given sources. -/
structure ConfigurationVersion where
  ID : String
  deriving DecidableEq, Repr

/-- Modelled from the spec: a resource envelope for an organization; the
struct is defined outside the given sources. -/
structure Organization where
  Name : String
  deriving DecidableEq, Repr

/-- Go `time.Time` values, abstracted to a number (their content is never
inspected by the embedded operations). -/
abbrev GoTime := Nat

/-- Go type `DeliveryType` is a string type in the source. -/
abbrev DeliveryType := String

def DeliveryAPP : DeliveryType := "app"

def DeliverySMS : DeliveryType := "sms"

/-- The organization permissions (two-factor state of an account). -/
structure TwoFactor where
  Delivery : DeliveryType
  Enabled : Bool
  ProvisioningURL : String
  RecoveryCodes : List String
  SMSNumber : String
  UsedRecoveryCodes : List String
  Verified : Bool
  deriving DecidableEq, Repr

/-- A Terraform Enterprise account. -/
structure Account where
  ID : String
  AvatarURL : String
  Email : String
  IsServiceAccount : Bool
  TwoFactor : Option TwoFactor
  UnconfirmedEmail : String
  Username : String
  V2Only : Bool
  deriving DecidableEq, Repr

/-- Options for updating an account (`ID` is for internal use only). -/
structure AccountUpdateOptions where
  ID : String
  Username : Option String
  Email : Option String
  deriving DecidableEq, Repr

/-- Options for enabling two factor authentication. -/
structure TwoFactorEnableOptions where
  ID : String
  Delivery : Option DeliveryType
  SMSNumber : Option String
  deriving DecidableEq, Repr

/-- Options for verifying two factor authentication. -/
structure TwoFactorVerifyOptions where
  ID : String
  Code : Option String
  deriving DecidableEq, Repr

/-- Method `TwoFactorEnableOptions.valid` from the source: a nil delivery method
is rejected with "Delivery is required". -/
def TwoFactorEnableOptions.valid (o : TwoFactorEnableOptions) : Option TFEError :=
  match o.Delivery with
  | none => some (TFEError.simple "Delivery is required")
  | some _ => none

/-- Method `TwoFactorVerifyOptions.valid` from the source: a nil or empty code is
rejected with "Code is required". -/
def TwoFactorVerifyOptions.valid (o : TwoFactorVerifyOptions) : Option TFEError :=
  if !validString o.Code then some (TFEError.simple "Code is required")
  else none

namespace Accounts

/-- Method `Accounts.Read`: GET account/details, decode a single account.
`nre` is the outcome of `newRequest` (nil on success) and `doRes` the
outcome of `client.do`. -/
def read (nre : Option TFEError) (doRes : Except TFEError Account) :
    OpResult Unit Account :=
  match nre with
  | some e => ⟨[], none, some e⟩
  | none =>
    let req : Request Unit := ⟨Method.GET, "account/details", none⟩
    match doRes with
    | Except.error e => ⟨[req], none, some e⟩
    | Except.ok a => ⟨[req], some a, none⟩

/-- Method `Accounts.Update`: clears the internal-use ID, then PATCH
account/update with the options as body. -/
def update (options : AccountUpdateOptions) (nre : Option TFEError)
    (doRes : Except TFEError Account) : OpResult AccountUpdateOptions Account :=
  let cleared : AccountUpdateOptions := { options with ID := "" }
  match nre with
  | some e => ⟨[], none, some e⟩
  | none =>
    let req : Request AccountUpdateOptions := ⟨Method.PATCH, "account/update", some cleared⟩
    match doRes with
    | Except.error e => ⟨[req], none, some e⟩
    | Except.ok a => ⟨[req], some a, none⟩

/-- Method `Accounts.EnableTwoFactor`: validates the options, clears the
internal-use ID, then POST account/actions/two-factor-enable. -/
def enableTwoFactor (options : TwoFactorEnableOptions) (nre : Option TFEError)
    (doRes : Except TFEError Account) : OpResult TwoFactorEnableOptions Account :=
  match options.valid with
  | some e => ⟨[], none, some e⟩
  | none =>
    let cleared : TwoFactorEnableOptions := { options with ID := "" }
    match nre with
    | some e => ⟨[], none, some e⟩
    | none =>
      let req : Request TwoFactorEnableOptions :=
        ⟨Method.POST, "account/actions/two-factor-enable", some cleared⟩
      match doRes with
      | Except.error e => ⟨[req], none, some e⟩
      | Except.ok a => ⟨[req], some a, none⟩

/-- Method `Accounts.VerifyTwoFactor`: validates the options, clears the
internal-use ID, then POST account/actions/two-factor-verify. -/
def verifyTwoFactor (options : TwoFactorVerifyOptions) (nre : Option TFEError)
    (doRes : Except TFEError Account) : OpResult TwoFactorVerifyOptions Account :=
  match options.valid with
  | some e => ⟨[], none, some e⟩
  | none =>
    let cleared : TwoFactorVerifyOptions := { options with ID := "" }
    match nre with
    | some e => ⟨[], none, some e⟩
    | none =>
      let req : Request TwoFactorVerifyOptions :=
        ⟨Method.POST, "account/actions/two-factor-verify", some cleared⟩
      match doRes with
      | Except.error e => ⟨[req], none, some e⟩
      | Except.ok a => ⟨[req], some a, none⟩

/-- Method `Accounts.DisableTwoFactor`: POST
account/actions/two-factor-disable with no body, decode a single
account. -/
def disableTwoFactor (nre : Option TFEError) (doRes : Except TFEError Account) :
    OpResult Unit Account :=
  match nre with
  | some e => ⟨[], none, some e⟩
  | none =>
    let req : Request Unit := ⟨Method.POST, "account/actions/two-factor-disable", none⟩
    match doRes with
    | Except.error e => ⟨[req], none, some e⟩
    | Except.ok a => ⟨[req], some a, none⟩

end Accounts

/-- Go type `RunStatus` is a string type in the source. -/
abbrev RunStatus := String

def RunApplied : RunStatus := "applied"

def RunApplying : RunStatus := "applying"

def RunCanceled : RunStatus := "canceled"

def RunConfirmed : RunStatus := "confirmed"

def RunDiscarded : RunStatus := "discarded"

def RunErrored : RunStatus := "errored"

def RunPending : RunStatus := "pending"

def RunPlanned : RunStatus := "planned"

def RunPlanning : RunStatus := "planning"

def RunPolicyChecked : RunStatus := "policy_checked"

def RunPolicyChecking : RunStatus := "policy_checking"

def RunPolicyOverride : RunStatus := "policy_override"

/-- Go type `RunSource` is a string type in the source. -/
abbrev RunSource := String

def RunSourceAPI : RunSource := "tfe-api"

def RunSourceConfigurationVersion : RunSource := "tfe-configuration-version"

def RunSourceUI : RunSource := "tfe-ui"

/-- The run actions. -/
structure RunActions where
  IsCancelable : Bool
  IsComfirmable : Bool
  IsDiscardable : Bool
  deriving DecidableEq, Repr

/-- The run permissions. -/
structure RunPermissions where
  CanApply : Bool
  CanCancel : Bool
  CanDiscard : Bool
  CanForceExecute : Bool
  deriving DecidableEq, Repr

/-- Timestamps for individual run statuses. -/
structure RunStatusTimestamps where
  ErroredAt : GoTime
  FinishedAt : GoTime
  QueuedAt : GoTime
  StartedAt : GoTime
  deriving DecidableEq, Repr

/-- A Terraform Enterprise run. -/
structure Run where
  ID : String
  Actions : Option RunActions
  CreatedAt : GoTime
  HasChanges : Bool
  IsDestroy : Bool
  Message : String
  Permissions : Option RunPermissions
  Source : RunSource
  Status : RunStatus
  StatusTimestamps : Option RunStatusTimestamps
  ConfigurationVersion : Option ConfigurationVersion
  Workspace : Option Workspace
  deriving DecidableEq, Repr

/-- Options for listing runs (embeds the shared pagination options). -/
structure RunListOptions extends ListOptions
  deriving DecidableEq, Repr

/-- Options for creating a new run (`ID` is for internal use only). -/
structure RunCreateOptions where
  ID : String
  IsDestroy : Option Bool
  Message : Option String
  ConfigurationVersion : Option ConfigurationVersion
  Workspace : Option Workspace
  deriving DecidableEq, Repr

/-- Method `RunCreateOptions.valid` from the source: a nil workspace is rejected
with "Workspace is required". -/
def RunCreateOptions.valid (o : RunCreateOptions) : Option TFEError :=
  match o.Workspace with
  | none => some (TFEError.simple "Workspace is required")
  | some _ => none

/-- Options for applying a run (an optional comment). -/
structure RunApplyOptions where
  Comment : Option String
  deriving DecidableEq, Repr

/-- Options for canceling a run (an optional comment). -/
structure RunCancelOptions where
  Comment : Option String
  deriving DecidableEq, Repr

/-- Options for discarding a run (an optional comment). -/
structure RunDiscardOptions where
  Comment : Option String
  deriving DecidableEq, Repr

/-- A Go interface value as handed back by the decoding step of
`client.do` for the runs collection: either a `*Run`, a `[]interface` slice
of further values, or some other dynamic value. -/
inductive GoVal where
  | runPtr (r : Run)
  | slice (elems : List GoVal)
  | otherVal (tag : String)

/-- The type assertion `r.(*Run)`: `none` models the panic on any other
dynamic type. -/
def asRunPtr (v : GoVal) : Option Run :=
  match v with
  | GoVal.runPtr r => some r
  | _ => none

/-- The element-wise assertion loop of `Runs.List`: assert each element to
`*Run`, appending in order; `none` models the panic at the first failing
assertion. -/
def runsAssertList (l : List GoVal) : Option (List Run) :=
  match l with
  | [] => some []
  | v :: rest =>
    match asRunPtr v with
    | none => none
    | some r =>
      match runsAssertList rest with
      | none => none
      | some rs => some (r :: rs)

/-- The post-processing of `Runs.List`: assert the decoded result to
`[]interface`, then assert each element to `*Run` in order.  `none` models
the panic of a failed assertion. -/
def runsAssert (result : GoVal) : Option (List Run) :=
  match result with
  | GoVal.slice l => runsAssertList l
  | _ => none

/-- Decidable shape check: the decoded result is a slice whose elements are
all run pointers. -/
def isRunSlice (v : GoVal) : Bool :=
  match v with
  | GoVal.slice l =>
    l.all (fun x => match x with | GoVal.runPtr _ => true | _ => false)
  | _ => false

namespace Runs

/-- Method `Runs.List`: validates the workspace ID, GET
workspaces/\x7bid\x7d/runs with the list options, then asserts the decoded
result element-wise.  The outer `Option` is `none` exactly when a type
assertion panics. -/
def list (workspaceID : String) (options : RunListOptions) (nre : Option TFEError)
    (doRes : Except TFEError GoVal) : Option (OpResult RunListOptions (List Run)) :=
  if !validStringID (some workspaceID) then
    some ⟨[], none, some (TFEError.simple "Invalid value for workspace ID")⟩
  else
    match nre with
    | some e => some ⟨[], none, some e⟩
    | none =>
      let req : Request RunListOptions :=
        ⟨Method.GET, "workspaces/" ++ queryEscape workspaceID ++ "/runs", some options⟩
      match doRes with
      | Except.error e => some ⟨[req], none, some e⟩
      | Except.ok v =>
        match runsAssert v with
        | none => none
        | some rs => some ⟨[req], some rs, none⟩

/-- Method `Runs.Create`: validates the options, clears the internal-use ID, then
POST runs with the options as body. -/
def create (options : RunCreateOptions) (nre : Option TFEError)
    (doRes : Except TFEError Run) : OpResult RunCreateOptions Run :=
  match options.valid with
  | some e => ⟨[], none, some e⟩
  | none =>
    let cleared : RunCreateOptions := { options with ID := "" }
    match nre with
    | some e => ⟨[], none, some e⟩
    | none =>
      let req : Request RunCreateOptions := ⟨Method.POST, "runs", some cleared⟩
      match doRes with
      | Except.error e => ⟨[req], none, some e⟩
      | Except.ok r => ⟨[req], some r, none⟩

/-- Method `Runs.Read`: validates the run ID, then GET runs/\x7bid\x7d. -/
def read (runID : String) (nre : Option TFEError)
    (doRes : Except TFEError Run) : OpResult Unit Run :=
  if !validStringID (some runID) then
    ⟨[], none, some (TFEError.simple "Invalid value for run ID")⟩
  else
    match nre with
    | some e => ⟨[], none, some e⟩
    | none =>
      let req : Request Unit := ⟨Method.GET, "runs/" ++ queryEscape runID, none⟩
      match doRes with
      | Except.error e => ⟨[req], none, some e⟩
      | Except.ok r => ⟨[req], some r, none⟩

/-- Method `Runs.Apply`: validates the run ID, then POST
runs/\x7bid\x7d/actions/apply with the optional comment as body. -/
def apply (runID : String) (options : RunApplyOptions) (nre : Option TFEError)
    (doRes : Option TFEError) : ActionResult RunApplyOptions :=
  if !validStringID (some runID) then
    ⟨[], some (TFEError.simple "Invalid value for run ID")⟩
  else
    match nre with
    | some e => ⟨[], some e⟩
    | none =>
      let req : Request RunApplyOptions :=
        ⟨Method.POST, "runs/" ++ queryEscape runID ++ "/actions/apply", some options⟩
      ⟨[req], doRes⟩

/-- Method `Runs.Cancel`: validates the run ID, then POST
runs/\x7bid\x7d/actions/cancel with the optional comment as body. -/
def cancel (runID : String) (options : RunCancelOptions) (nre : Option TFEError)
    (doRes : Option TFEError) : ActionResult RunCancelOptions :=
  if !validStringID (some runID) then
    ⟨[], some (TFEError.simple "Invalid value for run ID")⟩
  else
    match nre with
    | some e => ⟨[], some e⟩
    | none =>
      let req : Request RunCancelOptions :=
        ⟨Method.POST, "runs/" ++ queryEscape runID ++ "/actions/cancel", some options⟩
      ⟨[req], doRes⟩

/-- Method `Runs.Discard`: validates the run ID, then POST
runs/\x7bid\x7d/actions/discard with the optional comment as body. -/
def discard (runID : String) (options : RunDiscardOptions) (nre : Option TFEError)
    (doRes : Option TFEError) : ActionResult RunDiscardOptions :=
  if !validStringID (some runID) then
    ⟨[], some (TFEError.simple "Invalid value for run ID")⟩
  else
    match nre with
    | some e => ⟨[], some e⟩
    | none =>
      let req : Request RunDiscardOptions :=
        ⟨Method.POST, "runs/" ++ queryEscape runID ++ "/actions/discard", some options⟩
      ⟨[req], doRes⟩

end Runs

/-- Options used when creating a module. -/
structure ModuleCreateOptions where
  Name : String
  Provider : String
  deriving DecidableEq, Repr

/-- Options used when creating a module version. -/
structure ModuleCreateVersionOptions where
  Version : String
  deriving DecidableEq, Repr

/-- The configuration of a VCS integration. -/
structure ModuleVCSOptions where
  Identifier : String
  OAuthTokenID : String
  DisplayIdentifier : String
  deriving DecidableEq, Repr

/-- Options for publishing a registry module. -/
structure ModulePublishOptions where
  ModuleVCSOptions : Option ModuleVCSOptions
  deriving DecidableEq, Repr

/-- A registry module (`Module` in the source; renamed here to avoid the
ambient algebraic `Module`). -/
structure RegistryModule where
  ID : String
  ResourceType : String
  Name : String
  Provider : String
  Status : String
  CreatedAt : String
  UpdatedAt : String
  Organization : Option Organization
  deriving DecidableEq, Repr

/-- A registry module version. -/
structure ModuleVersion where
  ID : String
  ResourceType : String
  Source : String
  Status : String
  Version : String
  CreatedAt : String
  UpdatedAt : String
  deriving DecidableEq, Repr

namespace Registry

/-- Method `registry.Publish`: POST registry-modules with the options as body; no
validation of the options is performed. -/
def publish (options : ModulePublishOptions) (nre : Option TFEError)
    (doRes : Except TFEError RegistryModule) : OpResult ModulePublishOptions RegistryModule :=
  match nre with
  | some e => ⟨[], none, some e⟩
  | none =>
    let req : Request ModulePublishOptions := ⟨Method.POST, "registry-modules", some options⟩
    match doRes with
    | Except.error e => ⟨[req], none, some e⟩
    | Except.ok m => ⟨[req], some m, none⟩

/-- Method `registry.CreateModule`: POST
organizations/\x7borganization\x7d/registry-modules, interpolating the
organization name into the path verbatim; no validation and no escaping is
performed. -/
def createModule (organizationName : String) (options : ModuleCreateOptions)
    (nre : Option TFEError) (doRes : Except TFEError RegistryModule) :
    OpResult ModuleCreateOptions RegistryModule :=
  match nre with
  | some e => ⟨[], none, some e⟩
  | none =>
    let req : Request ModuleCreateOptions :=
      ⟨Method.POST, "organizations/" ++ organizationName ++ "/registry-modules", some options⟩
    match doRes with
    | Except.error e => ⟨[req], none, some e⟩
    | Except.ok m => ⟨[req], some m, none⟩

/-- Method `registry.CreateModuleVersion`: POST
registry-modules/\x7borg\x7d/\x7bmodule\x7d/\x7bprovider\x7d/versions,
interpolating all three identifiers into the path verbatim; no validation
and no escaping is performed. -/
def createModuleVersion (organizationName moduleName providerName : String)
    (options : ModuleCreateVersionOptions) (nre : Option TFEError)
    (doRes : Except TFEError ModuleVersion) :
    OpResult ModuleCreateVersionOptions ModuleVersion :=
  match nre with
  | some e => ⟨[], none, some e⟩
  | none =>
    let req : Request ModuleCreateVersionOptions :=
      ⟨Method.POST,
        "registry-modules/" ++ organizationName ++ "/" ++ moduleName ++ "/"
          ++ providerName ++ "/versions",
        some options⟩
    match doRes with
    | Except.error e => ⟨[req], none, some e⟩
    | Except.ok m => ⟨[req], some m, none⟩

/-- Method `registry.DeleteModule`: POST
registry-modules/actions/delete/\x7borg\x7d/\x7bmodule\x7d, interpolating
both identifiers verbatim; no validation and no escaping is performed. -/
def deleteModule (organizationName moduleName : String) (nre : Option TFEError)
    (doRes : Option TFEError) : ActionResult Unit :=
  match nre with
  | some e => ⟨[], some e⟩
  | none =>
    let req : Request Unit :=
      ⟨Method.POST,
        "registry-modules/actions/delete/" ++ organizationName ++ "/" ++ moduleName, none⟩
    ⟨[req], doRes⟩

/-- Method `registry.DeleteModuleVersion`: POST
registry-modules/actions/delete/\x7borg\x7d/\x7bmodule\x7d/\x7bprovider\x7d/\x7bversion\x7d,
interpolating all four identifiers verbatim; no validation and no escaping
is performed. -/
def deleteModuleVersion (organizationName moduleName provider version : String)
    (nre : Option TFEError) (doRes : Option TFEError) : ActionResult Unit :=
  match nre with
  | some e => ⟨[], some e⟩
  | none =>
    let req : Request Unit :=
      ⟨Method.POST,
        "registry-modules/actions/delete/" ++ organizationName ++ "/" ++ moduleName
          ++ "/" ++ provider ++ "/" ++ version, none⟩
    ⟨[req], doRes⟩

/-- Method `registry.DeleteModuleProvider`: POST
registry-modules/actions/delete/\x7borg\x7d/\x7bmodule\x7d/\x7bprovider\x7d,
interpolating all three identifiers verbatim; no validation and no escaping
is performed. -/
def deleteModuleProvider (organizationName moduleName provider : String)
    (nre : Option TFEError) (doRes : Option TFEError) : ActionResult Unit :=
  match nre with
  | some e => ⟨[], some e⟩
  | none =>
    let req : Request Unit :=
      ⟨Method.POST,
        "registry-modules/actions/delete/" ++ organizationName ++ "/" ++ moduleName
          ++ "/" ++ provider, none⟩
    ⟨[req], doRes⟩

end Registry

/-- Modelled from the spec: the remote store backing a resource collection,
as a list of existing resource identifiers.  All entity lifecycle lives on
the server; the client only observes status codes. -/
structure Store where
  keys : List String
  deriving DecidableEq, Repr

/-- Modelled from the spec: the server's response status for a Read of the
given identifier (200 when present, 404 when absent). -/
def serverRead (st : Store) (id : String) : Nat :=
  if st.keys.contains id then 200 else 404

/-- Modelled from the spec: the server's response status and resulting
store for a Delete of the given identifier (200 and removal when present,
404 and no change when absent). -/
def serverDelete (st : Store) (id : String) : Nat × Store :=
  if st.keys.contains id then (200, ⟨st.keys.filter (fun k => k != id)⟩)
  else (404, st)

/-- Modelled from the spec: `SSHKeys.Read` follows the uniform Read(id)
pattern (validate the id, GET, map the response status through the
decoder's error mapping); the ssh_key.go source is not among the given
files, only its tests.  Returns the error the client surfaces. -/
def sshKeysReadErr (st : Store) (id : String) : Option TFEError :=
  if !validStringID (some id) then some (TFEError.simple "Invalid value for SSH key ID")
  else checkResponseCode (serverRead st id) "not found"

/-- Modelled from the spec: `SSHKeys.Delete` follows the uniform Delete(id)
pattern (validate the id, issue the delete, map the response status);
returns the surfaced error together with the server store after the
call. -/
def sshKeysDeleteErr (st : Store) (id : String) : Option TFEError × Store :=
  if !validStringID (some id) then
    (some (TFEError.simple "Invalid value for SSH key ID"), st)
  else
    let res := serverDelete st id
    (checkResponseCode res.1 "not found", res.2)

/-- Modelled from the spec: server-side pagination of a collection —
1-based page number, fixed page size; a page past the end of the
collection is an empty sequence, not an error. -/
def paginate {α : Type} (items : List α) (opts : ListOptions) : List α :=
  (items.drop ((opts.PageNumber - 1) * opts.PageSize)).take opts.PageSize

/-- Every issued request in the list carries a body whose internal-use ID
field (projected by `idOf`) is the empty string. -/
def bodyIDCleared {β : Type} (idOf : β → String) (calls : List (Request β)) : Bool :=
  calls.all (fun req =>
    match req.body with
    | some b => idOf b == ""
    | none => true)

/-- A sample account used to instantiate transport outcomes. -/
def sampleAccount : Account :=
  ⟨"user-1", "", "a@b.c", false, none, "", "alice", true⟩

/-- A sample run used to instantiate transport outcomes. -/
def sampleRun : Run :=
  ⟨"run-1", none, 0, false, false, "", none, RunSourceAPI, RunPending, none, none, none⟩

/-- A second sample run, distinguishable from `sampleRun`. -/
def sampleRun2 : Run :=
  ⟨"run-2", none, 1, true, false, "two", none, RunSourceUI, RunPlanned, none, none, none⟩

/-- C1: for each operation whose options struct carries an internal-use-only
ID field (Accounts.Update, Accounts.EnableTwoFactor, Accounts.VerifyTwoFactor,
Runs.Create), every outgoing request carries a body whose ID field is the
empty string, and the operation's entire outcome is invariant under the
caller-supplied value of that ID field. -/
theorem c1_internal_id_cleared :
    (∀ (o : AccountUpdateOptions) (nre : Option TFEError) (dr : Except TFEError Account),
      bodyIDCleared AccountUpdateOptions.ID (Accounts.update o nre dr).calls = true
        ∧ ∀ id1 id2 : String,
          Accounts.update { o with ID := id1 } nre dr = Accounts.update { o with ID := id2 } nre dr)
  ∧ (∀ (o : TwoFactorEnableOptions) (nre : Option TFEError) (dr : Except TFEError Account),
      bodyIDCleared TwoFactorEnableOptions.ID (Accounts.enableTwoFactor o nre dr).calls = true
        ∧ ∀ id1 id2 : String,
          Accounts.enableTwoFactor { o with ID := id1 } nre dr
            = Accounts.enableTwoFactor { o with ID := id2 } nre dr)
  ∧ (∀ (o : TwoFactorVerifyOptions) (nre : Option TFEError) (dr : Except TFEError Account),
      bodyIDCleared TwoFactorVerifyOptions.ID (Accounts.verifyTwoFactor o nre dr).calls = true
        ∧ ∀ id1 id2 : String,
          Accounts.verifyTwoFactor { o with ID := id1 } nre dr
            = Accounts.verifyTwoFactor { o with ID := id2 } nre dr)
  ∧ (∀ (o : RunCreateOptions) (nre : Option TFEError) (dr : Except TFEError Run),
      bodyIDCleared RunCreateOptions.ID (Runs.create o nre dr).calls = true
        ∧ ∀ id1 id2 : String,
          Runs.create { o with ID := id1 } nre dr = Runs.create { o with ID := id2 } nre dr) := by
  refine ⟨fun o nre dr => ⟨?_, fun id1 id2 => rfl⟩,
         fun o nre dr => ⟨?_, fun id1 id2 => rfl⟩,
         fun o nre dr => ⟨?_, fun id1 id2 => rfl⟩,
         fun o nre dr => ⟨?_, fun id1 id2 => rfl⟩⟩
  · cases nre <;> cases dr <;> simp [Accounts.update, bodyIDCleared]
  · obtain ⟨oid, odel, osms⟩ := o
    cases odel <;> cases nre <;> cases dr <;>
      simp [Accounts.enableTwoFactor, TwoFactorEnableOptions.valid, bodyIDCleared]
  · obtain ⟨oid, ocode⟩ := o
    cases nre <;> cases dr <;>
      simp only [Accounts.verifyTwoFactor, TwoFactorVerifyOptions.valid] <;>
      split <;> simp [bodyIDCleared]
  · obtain ⟨oid, od, om, ocv, ows⟩ := o
    cases ows <;> cases nre <;> cases dr <;>
      simp [Runs.create, RunCreateOptions.valid, bodyIDCleared]

/-- C2: each Create-style operation with a required-field contract rejects an
omitted required field with a validation error naming that field and issues
no request: Runs.Create with a nil workspace fails with "Workspace is
required", Accounts.EnableTwoFactor with a nil delivery fails with "Delivery
is required", Accounts.VerifyTwoFactor with a nil or empty code fails with
"Code is required". -/
theorem c2_required_field_validation :
    (∀ (o : RunCreateOptions) (nre : Option TFEError) (dr : Except TFEError Run),
      o.Workspace = none →
        Runs.create o nre dr = ⟨[], none, some (TFEError.simple "Workspace is required")⟩)
  ∧ (∀ (o : TwoFactorEnableOptions) (nre : Option TFEError) (dr : Except TFEError Account),
      o.Delivery = none →
        Accounts.enableTwoFactor o nre dr
          = ⟨[], none, some (TFEError.simple "Delivery is required")⟩)
  ∧ (∀ (o : TwoFactorVerifyOptions) (nre : Option TFEError) (dr : Except TFEError Account),
      o.Code = none ∨ o.Code = some "" →
        Accounts.verifyTwoFactor o nre dr
          = ⟨[], none, some (TFEError.simple "Code is required")⟩) := by
  refine ⟨fun o nre dr h => ?_, fun o nre dr h => ?_, fun o nre dr h => ?_⟩
  · simp [Runs.create, RunCreateOptions.valid, h]
  · simp [Accounts.enableTwoFactor, TwoFactorEnableOptions.valid, h]
  · rcases h with h | h <;> simp [Accounts.verifyTwoFactor, TwoFactorVerifyOptions.valid, validString, h]

/-- Witness for C2 at concrete inputs: each omitted required field produces
exactly the named validation error and an empty call list. -/
theorem c2_required_field_validation_witness :
    Runs.create ⟨"caller-id", none, none, none, none⟩ none (Except.ok sampleRun)
        = ⟨[], none, some (TFEError.simple "Workspace is required")⟩
  ∧ Accounts.enableTwoFactor ⟨"caller-id", none, none⟩ none (Except.ok sampleAccount)
        = ⟨[], none, some (TFEError.simple "Delivery is required")⟩
  ∧ Accounts.verifyTwoFactor ⟨"caller-id", none⟩ none (Except.ok sampleAccount)
        = ⟨[], none, some (TFEError.simple "Code is required")⟩
  ∧ Accounts.verifyTwoFactor ⟨"caller-id", some ""⟩ none (Except.ok sampleAccount)
        = ⟨[], none, some (TFEError.simple "Code is required")⟩ :=
  ⟨c2_required_field_validation.1 _ none _ rfl,
   c2_required_field_validation.2.1 _ none _ rfl,
   c2_required_field_validation.2.2 _ none _ (Or.inl rfl),
   c2_required_field_validation.2.2 _ none _ (Or.inr rfl)⟩

/-- A sample registry module used to instantiate transport outcomes. -/
def sampleModule : RegistryModule :=
  ⟨"mod-1", "registry-modules", "consul", "aws", "pending", "", "", none⟩

/-- A sample registry module version used to instantiate transport
outcomes. -/
def sampleModuleVersion : ModuleVersion :=
  ⟨"modver-1", "registry-module-versions", "", "pending", "1.0.0", "", ""⟩

/-- C3 counterexample: `registry.DeleteModule` with empty organization and
module names performs no validation and issues one HTTP request, so the
claim that every listed operation rejects an empty identifier before any
request is constructed is false. -/
theorem c3_registry_no_validation_counterexample :
    Registry.deleteModule "" "" none none
        = ⟨[⟨Method.POST, "registry-modules/actions/delete//", none⟩], none⟩
      ∧ validStringID (some "") = false := by
  exact ⟨rfl, rfl⟩

/-- C3 (amended): the Runs operations List, Read, Apply, Cancel and Discard
reject an empty or whitespace-only identifier with a validation error and
issue zero requests; the Registry operations perform no identifier
validation and (when request building succeeds) issue exactly one request
regardless of the identifier values. -/
theorem c3_identifier_validation :
    (∀ (id : String) (opts : RunListOptions) (nre : Option TFEError)
        (dr : Except TFEError GoVal), validStringID (some id) = false →
      Runs.list id opts nre dr
        = some ⟨[], none, some (TFEError.simple "Invalid value for workspace ID")⟩)
  ∧ (∀ (id : String) (nre : Option TFEError) (dr : Except TFEError Run),
      validStringID (some id) = false →
      Runs.read id nre dr = ⟨[], none, some (TFEError.simple "Invalid value for run ID")⟩)
  ∧ (∀ (id : String) (opts : RunApplyOptions) (nre : Option TFEError) (dr : Option TFEError),
      validStringID (some id) = false →
      Runs.apply id opts nre dr = ⟨[], some (TFEError.simple "Invalid value for run ID")⟩)
  ∧ (∀ (id : String) (opts : RunCancelOptions) (nre : Option TFEError) (dr : Option TFEError),
      validStringID (some id) = false →
      Runs.cancel id opts nre dr = ⟨[], some (TFEError.simple "Invalid value for run ID")⟩)
  ∧ (∀ (id : String) (opts : RunDiscardOptions) (nre : Option TFEError) (dr : Option TFEError),
      validStringID (some id) = false →
      Runs.discard id opts nre dr = ⟨[], some (TFEError.simple "Invalid value for run ID")⟩)
  ∧ (∀ (org name prov ver : String),
      (Registry.createModule org ⟨name, prov⟩ none (Except.ok sampleModule)).calls.length = 1
      ∧ (Registry.createModuleVersion org name prov ⟨ver⟩ none
          (Except.ok sampleModuleVersion)).calls.length = 1
      ∧ (Registry.deleteModule org name none none).calls.length = 1
      ∧ (Registry.deleteModuleVersion org name prov ver none none).calls.length = 1
      ∧ (Registry.deleteModuleProvider org name prov none none).calls.length = 1) := by
  refine ⟨fun id opts nre dr h => ?_, fun id nre dr h => ?_, fun id opts nre dr h => ?_,
          fun id opts nre dr h => ?_, fun id opts nre dr h => ?_,
          fun org name prov ver => ⟨rfl, rfl, rfl, rfl, rfl⟩⟩
  · simp [Runs.list, h]
  · simp [Runs.read, h]
  · simp [Runs.apply, h]
  · simp [Runs.cancel, h]
  · simp [Runs.discard, h]

/-- Witness for C3 (amended) at concrete inputs, with a whitespace-only run
identifier and empty registry identifiers. -/
theorem c3_identifier_validation_witness :
    Runs.read " " none (Except.ok sampleRun)
        = ⟨[], none, some (TFEError.simple "Invalid value for run ID")⟩
  ∧ Runs.list "" ⟨⟨1, 20⟩⟩ none (Except.error TFEError.notFound)
        = some ⟨[], none, some (TFEError.simple "Invalid value for workspace ID")⟩
  ∧ Runs.apply " " ⟨none⟩ none none
        = ⟨[], some (TFEError.simple "Invalid value for run ID")⟩
  ∧ Runs.cancel "" ⟨none⟩ none none
        = ⟨[], some (TFEError.simple "Invalid value for run ID")⟩
  ∧ Runs.discard " " ⟨none⟩ none none
        = ⟨[], some (TFEError.simple "Invalid value for run ID")⟩
  ∧ (Registry.deleteModuleVersion "" "" "" "" none none).calls.length = 1 :=
  ⟨c3_identifier_validation.2.1 " " none (Except.ok sampleRun) rfl,
   c3_identifier_validation.1 "" ⟨⟨1, 20⟩⟩ none (Except.error TFEError.notFound) rfl,
   c3_identifier_validation.2.2.1 " " ⟨none⟩ none none rfl,
   c3_identifier_validation.2.2.2.1 "" ⟨none⟩ none none rfl,
   c3_identifier_validation.2.2.2.2.1 " " ⟨none⟩ none none rfl,
   (c3_identifier_validation.2.2.2.2.2 "" "" "" "").2.2.2.1⟩

/-- C4 counterexample: `registry.CreateModuleVersion` places the
caller-supplied organization name "a b" into the request path verbatim,
even though its percent-encoded form differs, so the claim that every
identifier-derived path segment of the listed operations is
percent-encoded is false. -/
theorem c4_registry_no_encoding_counterexample :
    (Registry.createModuleVersion "a b" "m" "p" ⟨"1.0.0"⟩ none
        (Except.ok sampleModuleVersion)).calls.map Request.path
      = ["registry-modules/a b/m/p/versions"]
    ∧ queryEscape "a b" = "a+b" ∧ "a+b" ≠ "a b" := by
  exact ⟨rfl, by decide, by decide⟩

/-- C4 (amended): the Runs operations List, Read, Apply, Cancel and Discard
pass the caller-supplied identifier through `url.QueryEscape` before
placing it into the request path, while the Registry operations
CreateModule, CreateModuleVersion, DeleteModule, DeleteModuleVersion and
DeleteModuleProvider interpolate caller-supplied identifiers into the path
verbatim, without any encoding. -/
theorem c4_path_encoding :
    (∀ (id : String) (opts : RunListOptions) (dr : Except TFEError GoVal),
      validStringID (some id) = true →
      ∀ res, Runs.list id opts none dr = some res →
        res.calls.map Request.path = ["workspaces/" ++ queryEscape id ++ "/runs"])
  ∧ (∀ (id : String) (dr : Except TFEError Run), validStringID (some id) = true →
      (Runs.read id none dr).calls.map Request.path = ["runs/" ++ queryEscape id])
  ∧ (∀ (id : String) (opts : RunApplyOptions) (dr : Option TFEError),
      validStringID (some id) = true →
      (Runs.apply id opts none dr).calls.map Request.path
        = ["runs/" ++ queryEscape id ++ "/actions/apply"])
  ∧ (∀ (id : String) (opts : RunCancelOptions) (dr : Option TFEError),
      validStringID (some id) = true →
      (Runs.cancel id opts none dr).calls.map Request.path
        = ["runs/" ++ queryEscape id ++ "/actions/cancel"])
  ∧ (∀ (id : String) (opts : RunDiscardOptions) (dr : Option TFEError),
      validStringID (some id) = true →
      (Runs.discard id opts none dr).calls.map Request.path
        = ["runs/" ++ queryEscape id ++ "/actions/discard"])
  ∧ (∀ (org name prov ver : String),
      (Registry.createModule org ⟨name, prov⟩ none (Except.ok sampleModule)).calls.map Request.path
          = ["organizations/" ++ org ++ "/registry-modules"]
      ∧ (Registry.createModuleVersion org name prov ⟨ver⟩ none
            (Except.ok sampleModuleVersion)).calls.map Request.path
          = ["registry-modules/" ++ org ++ "/" ++ name ++ "/" ++ prov ++ "/versions"]
      ∧ (Registry.deleteModule org name none none).calls.map Request.path
          = ["registry-modules/actions/delete/" ++ org ++ "/" ++ name]
      ∧ (Registry.deleteModuleVersion org name prov ver none none).calls.map Request.path
          = ["registry-modules/actions/delete/" ++ org ++ "/" ++ name ++ "/" ++ prov ++ "/" ++ ver]
      ∧ (Registry.deleteModuleProvider org name prov none none).calls.map Request.path
          = ["registry-modules/actions/delete/" ++ org ++ "/" ++ name ++ "/" ++ prov]) := by
  refine ⟨fun id opts dr h res hres => ?_, fun id dr h => ?_, fun id opts dr h => ?_,
          fun id opts dr h => ?_, fun id opts dr h => ?_,
          fun org name prov ver => ⟨rfl, rfl, rfl, rfl, rfl⟩⟩
  · cases dr with
    | error e =>
      simp [Runs.list, h] at hres
      subst hres
      rfl
    | ok v =>
      cases hv : runsAssert v with
      | none => simp [Runs.list, h, hv] at hres
      | some rs =>
        simp [Runs.list, h, hv] at hres
        subst hres
        rfl
  · cases dr <;> simp [Runs.read, h]
  · simp [Runs.apply, h]
  · simp [Runs.cancel, h]
  · simp [Runs.discard, h]

/-- Witness for C4 (amended) at concrete inputs: a run identifier with a
reserved character is escaped in the issued path. -/
theorem c4_path_encoding_witness :
    (Runs.read "run/1" none (Except.ok sampleRun)).calls.map Request.path = ["runs/run%2F1"]
  ∧ (Runs.apply "run 1" ⟨none⟩ none none).calls.map Request.path
      = ["runs/run+1/actions/apply"] := by
  constructor
  · have h := c4_path_encoding.2.1 "run/1" (Except.ok sampleRun) (by decide)
    rw [h]; decide
  · have h := c4_path_encoding.2.2.1 "run 1" ⟨none⟩ none (by decide)
    rw [h]; decide

/-- C7: the requests issued by Runs.Apply, Runs.Cancel and Runs.Discard are
a function of the run identifier and the optional comment alone — for a
valid run identifier each operation issues exactly the fixed action request
for that identifier and body, independent of any transport/server outcome
(in particular of the run's current status), and no transition legality is
computed locally. -/
theorem c7_actions_status_independent :
    (∀ (id : String) (opts : RunApplyOptions) (dr : Option TFEError),
      validStringID (some id) = true →
      Runs.apply id opts none dr
        = ⟨[⟨Method.POST, "runs/" ++ queryEscape id ++ "/actions/apply", some opts⟩], dr⟩)
  ∧ (∀ (id : String) (opts : RunCancelOptions) (dr : Option TFEError),
      validStringID (some id) = true →
      Runs.cancel id opts none dr
        = ⟨[⟨Method.POST, "runs/" ++ queryEscape id ++ "/actions/cancel", some opts⟩], dr⟩)
  ∧ (∀ (id : String) (opts : RunDiscardOptions) (dr : Option TFEError),
      validStringID (some id) = true →
      Runs.discard id opts none dr
        = ⟨[⟨Method.POST, "runs/" ++ queryEscape id ++ "/actions/discard", some opts⟩], dr⟩)
  ∧ (∀ (id : String) (oa : RunApplyOptions) (oc : RunCancelOptions) (od : RunDiscardOptions)
        (nre : Option TFEError) (dr1 dr2 : Option TFEError),
      (Runs.apply id oa nre dr1).calls = (Runs.apply id oa nre dr2).calls
      ∧ (Runs.cancel id oc nre dr1).calls = (Runs.cancel id oc nre dr2).calls
      ∧ (Runs.discard id od nre dr1).calls = (Runs.discard id od nre dr2).calls) := by
  refine ⟨fun id opts dr h => ?_, fun id opts dr h => ?_, fun id opts dr h => ?_,
          fun id oa oc od nre dr1 dr2 => ⟨?_, ?_, ?_⟩⟩
  · simp [Runs.apply, h]
  · simp [Runs.cancel, h]
  · simp [Runs.discard, h]
  · cases h : validStringID (some id) <;> cases nre <;> simp [Runs.apply, h]
  · cases h : validStringID (some id) <;> cases nre <;> simp [Runs.cancel, h]
  · cases h : validStringID (some id) <;> cases nre <;> simp [Runs.discard, h]

/-- Witness for C7 at a concrete valid run identifier: the issued action
requests are exactly the fixed POST requests for that identifier. -/
theorem c7_actions_status_independent_witness :
    Runs.apply "run-1" ⟨some "ship it"⟩ none none
      = ⟨[⟨Method.POST, "runs/run-1/actions/apply", some ⟨some "ship it"⟩⟩], none⟩
  ∧ Runs.cancel "run-1" ⟨none⟩ none (some TFEError.notFound)
      = ⟨[⟨Method.POST, "runs/run-1/actions/cancel", some ⟨none⟩⟩], some TFEError.notFound⟩
  ∧ Runs.discard "run-1" ⟨none⟩ none none
      = ⟨[⟨Method.POST, "runs/run-1/actions/discard", some ⟨none⟩⟩], none⟩ := by
  refine ⟨?_, ?_, ?_⟩
  · have h := c7_actions_status_independent.1 "run-1" ⟨some "ship it"⟩ none (by decide)
    rw [h]; decide
  · have h := c7_actions_status_independent.2.1 "run-1" ⟨none⟩ (some TFEError.notFound) (by decide)
    rw [h]; decide
  · have h := c7_actions_status_independent.2.2.1 "run-1" ⟨none⟩ none (by decide)
    rw [h]; decide

/-- After filtering out an identifier, membership lookup for it fails. -/
theorem contains_filter_ne (l : List String) (id : String) :
    (l.filter (fun k => k != id)).contains id = false := by
  simp [List.mem_filter]

/-- Reading an identifier absent from the store surfaces the not-found
error. -/
theorem sshKeysReadErr_absent (st : Store) (id : String)
    (h : validStringID (some id) = true) (hc : st.keys.contains id = false) :
    sshKeysReadErr st id = some TFEError.notFound := by
  simp only [List.contains, List.elem_eq_mem, decide_eq_false_iff_not] at hc
  unfold sshKeysReadErr serverRead
  simp [h, hc, checkResponseCode]

/-- Deleting an identifier absent from the store surfaces the not-found
error and leaves the store unchanged. -/
theorem sshKeysDeleteErr_absent (st : Store) (id : String)
    (h : validStringID (some id) = true) (hc : st.keys.contains id = false) :
    sshKeysDeleteErr st id = (some TFEError.notFound, st) := by
  simp only [List.contains, List.elem_eq_mem, decide_eq_false_iff_not] at hc
  unfold sshKeysDeleteErr serverDelete
  simp [h, hc, checkResponseCode]

/-- After a delete (valid identifier), the identifier is absent from the
resulting store. -/
theorem sshKeysDeleteErr_removes (st : Store) (id : String)
    (h : validStringID (some id) = true) :
    ((sshKeysDeleteErr st id).2).keys.contains id = false := by
  unfold sshKeysDeleteErr serverDelete
  by_cases hc : id ∈ st.keys
  · simp [h, hc, List.mem_filter]
  · simp [h, hc]

/-- C5: the decoder maps 404 to the distinct not-found error kind, so for
any server store and any valid identifier, Delete followed by Read yields
the not-found error, a second Delete of the same identifier yields the same
not-found error, and the not-found kind is distinct from every other error
kind. -/
theorem c5_delete_read_not_found (st : Store) (id : String)
    (h : validStringID (some id) = true) :
    sshKeysReadErr (sshKeysDeleteErr st id).2 id = some TFEError.notFound
  ∧ (sshKeysDeleteErr (sshKeysDeleteErr st id).2 id).1 = some TFEError.notFound
  ∧ checkResponseCode 404 "not found" = some TFEError.notFound
  ∧ (∀ s m, TFEError.notFound ≠ TFEError.requestFailed s m)
  ∧ (∀ m, TFEError.notFound ≠ TFEError.simple m) := by
  have hafter := sshKeysDeleteErr_removes st id h
  refine ⟨sshKeysReadErr_absent _ id h hafter, ?_, rfl,
    fun s m hne => TFEError.noConfusion hne, fun m hne => TFEError.noConfusion hne⟩
  rw [sshKeysDeleteErr_absent _ id h hafter]

/-- Witness for C5 at a concrete store holding one key. -/
theorem c5_delete_read_not_found_witness :
    sshKeysReadErr (sshKeysDeleteErr ⟨["key-1"]⟩ "key-1").2 "key-1" = some TFEError.notFound
  ∧ (sshKeysDeleteErr (sshKeysDeleteErr ⟨["key-1"]⟩ "key-1").2 "key-1").1
      = some TFEError.notFound :=
  ⟨(c5_delete_read_not_found ⟨["key-1"]⟩ "key-1" (by decide)).1,
   (c5_delete_read_not_found ⟨["key-1"]⟩ "key-1" (by decide)).2.1⟩

/-- Asserting a list of wrapped run pointers recovers exactly that list. -/
theorem runsAssertList_map_runPtr (rs : List Run) :
    runsAssertList (rs.map GoVal.runPtr) = some rs := by
  induction rs with
  | nil => rfl
  | cons r t ih => simp [runsAssertList, asRunPtr, ih]

/-- C6: for every decoded collection response, Runs.List returns exactly the
runs of the decoded response in their decoded order — no re-sorting,
insertion or removal happens between decoding and the returned slice. -/
theorem c6_list_preserves_order (wsID : String) (opts : RunListOptions) (rs : List Run)
    (h : validStringID (some wsID) = true) :
    Runs.list wsID opts none (Except.ok (GoVal.slice (rs.map GoVal.runPtr)))
      = some ⟨[⟨Method.GET, "workspaces/" ++ queryEscape wsID ++ "/runs", some opts⟩],
          some rs, none⟩ := by
  simp [Runs.list, h, runsAssert, runsAssertList_map_runPtr rs]

/-- Witness for C6: a two-element decoded collection comes back in the same
order. -/
theorem c6_list_preserves_order_witness :
    Runs.list "ws-1" ⟨⟨1, 20⟩⟩ none
        (Except.ok (GoVal.slice ([sampleRun, sampleRun2].map GoVal.runPtr)))
      = some ⟨[⟨Method.GET, "workspaces/ws-1/runs", some ⟨⟨1, 20⟩⟩⟩],
          some [sampleRun, sampleRun2], none⟩ := by
  have h := c6_list_preserves_order "ws-1" ⟨⟨1, 20⟩⟩ [sampleRun, sampleRun2] (by decide)
  rw [h]
  decide

/-- C8: a page number beyond the last available page of the collection
yields an empty sequence and no error (server-side pagination modelled from
the spec, composed with Runs.List from the source). -/
theorem c8_out_of_range_page_empty (wsID : String) (opts : RunListOptions)
    (items : List Run) (h : validStringID (some wsID) = true)
    (hpage : items.length ≤ (opts.PageNumber - 1) * opts.PageSize) :
    Runs.list wsID opts none
        (Except.ok (GoVal.slice ((paginate items opts.toListOptions).map GoVal.runPtr)))
      = some ⟨[⟨Method.GET, "workspaces/" ++ queryEscape wsID ++ "/runs", some opts⟩],
          some [], none⟩ := by
  have hempty : paginate items opts.toListOptions = [] := by
    unfold paginate
    rw [List.drop_eq_nil_of_le hpage, List.take_nil]
  rw [hempty]
  exact c6_list_preserves_order wsID opts [] h

/-- Witness for C8: page 999 of size 100 over a one-element collection is
past the end and yields the empty list with no error. -/
theorem c8_out_of_range_page_empty_witness :
    Runs.list "ws-1" ⟨⟨999, 100⟩⟩ none
        (Except.ok (GoVal.slice
          ((paginate [sampleRun] (⟨⟨999, 100⟩⟩ : RunListOptions).toListOptions).map
            GoVal.runPtr)))
      = some ⟨[⟨Method.GET, "workspaces/ws-1/runs", some ⟨⟨999, 100⟩⟩⟩], some [], none⟩ := by
  have h := c8_out_of_range_page_empty "ws-1" ⟨⟨999, 100⟩⟩ [sampleRun] (by decide) (by decide)
  rw [h]
  decide

/-- C9: every embedded operation returning a resource pointer and an error
never returns both a non-nil resource and a non-nil error — on every path
at least one of the two is nil (Accounts.Read, Accounts.Update,
Accounts.EnableTwoFactor, Accounts.VerifyTwoFactor,
Accounts.DisableTwoFactor, Runs.Create, Runs.Read, Runs.List,
registry.Publish, registry.CreateModule, registry.CreateModuleVersion). -/
theorem c9_error_excludes_value :
    (∀ (nre : Option TFEError) (dr : Except TFEError Account),
      ((Accounts.read nre dr).err.isNone || (Accounts.read nre dr).value.isNone) = true)
  ∧ (∀ (o : AccountUpdateOptions) (nre : Option TFEError) (dr : Except TFEError Account),
      ((Accounts.update o nre dr).err.isNone || (Accounts.update o nre dr).value.isNone) = true)
  ∧ (∀ (o : TwoFactorEnableOptions) (nre : Option TFEError) (dr : Except TFEError Account),
      ((Accounts.enableTwoFactor o nre dr).err.isNone
        || (Accounts.enableTwoFactor o nre dr).value.isNone) = true)
  ∧ (∀ (o : TwoFactorVerifyOptions) (nre : Option TFEError) (dr : Except TFEError Account),
      ((Accounts.verifyTwoFactor o nre dr).err.isNone
        || (Accounts.verifyTwoFactor o nre dr).value.isNone) = true)
  ∧ (∀ (nre : Option TFEError) (dr : Except TFEError Account),
      ((Accounts.disableTwoFactor nre dr).err.isNone
        || (Accounts.disableTwoFactor nre dr).value.isNone) = true)
  ∧ (∀ (o : RunCreateOptions) (nre : Option TFEError) (dr : Except TFEError Run),
      ((Runs.create o nre dr).err.isNone || (Runs.create o nre dr).value.isNone) = true)
  ∧ (∀ (id : String) (nre : Option TFEError) (dr : Except TFEError Run),
      ((Runs.read id nre dr).err.isNone || (Runs.read id nre dr).value.isNone) = true)
  ∧ (∀ (id : String) (opts : RunListOptions) (nre : Option TFEError)
        (dr : Except TFEError GoVal),
      (Runs.list id opts nre dr).all
        (fun res => res.err.isNone || res.value.isNone) = true)
  ∧ (∀ (o : ModulePublishOptions) (nre : Option TFEError)
        (dr : Except TFEError RegistryModule),
      ((Registry.publish o nre dr).err.isNone || (Registry.publish o nre dr).value.isNone) = true)
  ∧ (∀ (org : String) (o : ModuleCreateOptions) (nre : Option TFEError)
        (dr : Except TFEError RegistryModule),
      ((Registry.createModule org o nre dr).err.isNone
        || (Registry.createModule org o nre dr).value.isNone) = true)
  ∧ (∀ (org name prov : String) (o : ModuleCreateVersionOptions) (nre : Option TFEError)
        (dr : Except TFEError ModuleVersion),
      ((Registry.createModuleVersion org name prov o nre dr).err.isNone
        || (Registry.createModuleVersion org name prov o nre dr).value.isNone) = true) := by
  refine ⟨fun nre dr => ?_, fun o nre dr => ?_, fun o nre dr => ?_, fun o nre dr => ?_,
          fun nre dr => ?_, fun o nre dr => ?_, fun id nre dr => ?_,
          fun id opts nre dr => ?_, fun o nre dr => ?_, fun org o nre dr => ?_,
          fun org name prov o nre dr => ?_⟩
  · cases nre <;> cases dr <;> rfl
  · cases nre <;> cases dr <;> rfl
  · obtain ⟨oid, odel, osms⟩ := o
    cases odel <;> cases nre <;> cases dr <;> rfl
  · obtain ⟨oid, ocode⟩ := o
    cases h : validString ocode <;> cases nre <;> cases dr <;>
      simp [Accounts.verifyTwoFactor, TwoFactorVerifyOptions.valid, h]
  · cases nre <;> cases dr <;> rfl
  · obtain ⟨oid, od, om, ocv, ows⟩ := o
    cases ows <;> cases nre <;> cases dr <;> rfl
  · cases h : validStringID (some id) <;> cases nre <;> cases dr <;> simp [Runs.read, h]
  · cases h : validStringID (some id) <;> cases nre <;> cases dr <;>
      simp [Runs.list, h]
    case true.none.ok v =>
      cases hv : runsAssert v <;> simp [hv]
  · cases nre <;> cases dr <;> rfl
  · cases nre <;> cases dr <;> rfl
  · cases nre <;> cases dr <;> rfl

/-- The assertion loop succeeds exactly when every element of the list is a
run pointer. -/
theorem runsAssertList_isSome (l : List GoVal) :
    (runsAssertList l).isSome
      = l.all (fun x => match x with | GoVal.runPtr _ => true | _ => false) := by
  induction l with
  | nil => rfl
  | cons v rest ih =>
    cases v with
    | runPtr r =>
      cases hr : runsAssertList rest with
      | none => simp [runsAssertList, asRunPtr, hr, ← ih]
      | some rs => simp [runsAssertList, asRunPtr, hr, ← ih]
    | slice l2 => simp [runsAssertList, asRunPtr]
    | otherVal t => simp [runsAssertList, asRunPtr]

/-- C10: the unchecked type assertions of Runs.List are panic-free exactly
when the decoded result is a slice whose elements are all run pointers;
under that shape the assertion-failure branches are unreachable, and for
any other decoded shape the call panics. -/
theorem c10_list_assertions_panic_free_iff :
    (∀ v : GoVal, (runsAssert v).isSome = isRunSlice v)
  ∧ (∀ (wsID : String) (opts : RunListOptions) (v : GoVal),
      validStringID (some wsID) = true →
      (Runs.list wsID opts none (Except.ok v)).isSome = isRunSlice v) := by
  have haux : ∀ v : GoVal, (runsAssert v).isSome = isRunSlice v := by
    intro v
    cases v with
    | runPtr r => rfl
    | slice l => simpa [runsAssert, isRunSlice] using runsAssertList_isSome l
    | otherVal t => rfl
  refine ⟨haux, fun wsID opts v h => ?_⟩
  rw [← haux v]
  cases hv : runsAssert v with
  | none => simp [Runs.list, h, hv]
  | some rs => simp [Runs.list, h, hv]

/-- Witness for C10: a non-slice decoded value panics, a slice of run
pointers does not. -/
theorem c10_list_assertions_panic_free_iff_witness :
    (Runs.list "ws-1" ⟨⟨1, 20⟩⟩ none (Except.ok (GoVal.otherVal "str"))).isSome = false
  ∧ (Runs.list "ws-1" ⟨⟨1, 20⟩⟩ none
      (Except.ok (GoVal.slice [GoVal.runPtr sampleRun]))).isSome = true := by
  constructor
  · have h := c10_list_assertions_panic_free_iff.2 "ws-1" ⟨⟨1, 20⟩⟩
      (GoVal.otherVal "str") (by decide)
    rw [h]; rfl
  · have h := c10_list_assertions_panic_free_iff.2 "ws-1" ⟨⟨1, 20⟩⟩
      (GoVal.slice [GoVal.runPtr sampleRun]) (by decide)
    rw [h]; rfl
